import Mathlib

/-!
Shallow embedding of `src/cvproj/scripts/train.py` (the training
orchestration routine `main`).  The script's bespoke logic is sequential
orchestration: construct networks, dispatch on `cfg.dataset_type` to build
datasets, loop over epochs/batches computing several loss terms, step
optimizers/schedulers, and perform periodic side effects (checkpointing,
validation) on synchronized steps.  We model the configuration record, the
dataset dispatch, the per-micro-step event trace, the synchronized-step
side-effect block, and the validation pass as executable Lean functions,
each translated from the corresponding lines of the source.
-/

namespace CVProj

/-- The configuration record `TrainConfig` (fields read by `main`).
Loss weights are rationals; frequencies and counts are naturals. -/
structure TrainConfig where
  dataset_type : String
  dataset_folder : String
  output_dir : String
  l_rec : ℚ
  l_lpips : ℚ
  l_clipsim : ℚ
  l_gan : ℚ
  image_log_freq : ℕ
  model_log_freq : ℕ
  eval_freq : ℕ
  num_samples_to_eval : ℕ
  epoch_num : ℕ
  train_batch_size : ℕ
  eval_batch_size : ℕ
  track_fid_metrci_val : Bool
  deriving Repr, DecidableEq

/-- The value `gradient_accumulation_steps=20` passed to the
`Accelerator` constructor (train.py line 31). -/
def gradientAccumulationSteps : ℕ := 20

/-- A dataset-constructor invocation: which dataset class is called, with
which `split` argument, and whether `dataset_folder` is passed. -/
structure DatasetCall where
  ctor : String
  split : String
  usesFolder : Bool
  deriving Repr, DecidableEq

/-- Model of `os.path.join` on two components. -/
def pathJoin (a b : String) : String := a ++ "/" ++ b

/-- The dataset dispatch of train.py lines 118-160: the if/elif chain on
`cfg.dataset_type`.  Returns the training-dataset call and the
validation-dataset call; in the `"paired"` branch the validation-dataset
construction is commented out in the source, so no validation call is
produced (`none`).  An unrecognized value raises
`ValueError(f"Unknown dataset type \x27{cfg.dataset_type}\x27")`,
modelled as `Except.error` carrying the message. -/
def datasetDispatch (cfg : TrainConfig) :
    Except String (DatasetCall × Option DatasetCall) :=
  if cfg.dataset_type = "sketchy" then
    .ok (⟨"SketchyDataset", "train", true⟩, some ⟨"SketchyDataset", "val", true⟩)
  else if cfg.dataset_type = "pokemon" then
    .ok (⟨"PokemonDataset", "train", false⟩, some ⟨"PokemonDataset", "train", false⟩)
  else if cfg.dataset_type = "pixel" then
    .ok (⟨"PixelDataset", "train", false⟩, some ⟨"PixelDataset", "train", false⟩)
  else if cfg.dataset_type = "paired" then
    .ok (⟨"PairedDataset", "train", true⟩, none)
  else
    .error ("Unknown dataset type \x27" ++ cfg.dataset_type ++ "\x27")

/-- The four dataset-type values the dispatch recognizes. -/
def supportedDatasetTypes : List String :=
  ["sketchy", "pokemon", "pixel", "paired"]

/-- Events of the setup phase of `main` (train.py lines 48-263), at the
granularity the claims need: network constructions, dataset
constructions, data-loader constructions, raised errors, and entry into
the training loop. -/
inductive SetupEvent where
  | mkGenerator
  | mkDiscriminator
  | mkLPIPS
  | mkCLIP
  | mkOptimizers
  | mkDataset (ctor : String) (split : String)
  | raiseValueError (msg : String)
  | raiseUnboundLocal (varName : String)
  | mkTrainLoader
  | mkValLoader
  | enterTrainingLoop
  deriving Repr, DecidableEq

/-- Is the event the construction of one of the four networks
(generator, discriminator, LPIPS, CLIP)? -/
def SetupEvent.isModelConstruction : SetupEvent → Bool
  | .mkGenerator => true
  | .mkDiscriminator => true
  | .mkLPIPS => true
  | .mkCLIP => true
  | _ => false

/-- Is the event a raised `ValueError`? -/
def SetupEvent.isRaiseValueError : SetupEvent → Bool
  | .raiseValueError _ => true
  | _ => false

/-- The setup-phase trace of `main` (train.py lines 48-263, straight-line
order): `Pix2Pix_Turbo` (line 48), the discriminator (line 61), LPIPS
(line 70), CLIP (line 73), the optimizers/schedulers (lines 96-116), then
the dataset dispatch (lines 118-160).  On an unrecognized type the
`ValueError` ends the run.  Otherwise `dl_train` is built (line 162); in
the `"paired"` branch `dataset_val` was never assigned, so the
`dl_val = DataLoader(dataset_val, ...)` line (169) raises
`UnboundLocalError` reading `dataset_val`; in the other branches both
loaders are built and control reaches the training loop (line 262). -/
def setupTrace (cfg : TrainConfig) : List SetupEvent :=
  [.mkGenerator, .mkDiscriminator, .mkLPIPS, .mkCLIP, .mkOptimizers] ++
  match datasetDispatch cfg with
  | .error msg => [.raiseValueError msg]
  | .ok (tr, valCall) =>
    [.mkDataset tr.ctor tr.split] ++
    match valCall with
    | some v => [.mkDataset v.ctor v.split, .mkTrainLoader, .mkValLoader,
                 .enterTrainingLoop]
    | none => [.mkTrainLoader, .raiseUnboundLocal "dataset_val"]

/-- Does some model construction occur strictly before a raised
`ValueError` in the trace?  (Scans left to right; once a model
construction has been seen, any later `ValueError` witnesses it.) -/
def modelBeforeValueError : List SetupEvent → Bool
  | [] => false
  | e :: rest =>
    if e.isModelConstruction then rest.any SetupEvent.isRaiseValueError
    else modelBeforeValueError rest

/-! ### Training micro-step (train.py lines 264-359) -/

/-- The raw scalar values returned by the delegated loss libraries on one
batch: `F.mse_loss(...)`, `net_lpips(...).mean()`, `clipsim.mean()` from
`net_clip`, `net_disc(..., for_G=True).mean()`,
`net_disc(x_tgt, for_real=True).mean()` and
`net_disc(x_tgt_pred, for_real=False).mean()`.  They are opaque inputs to
the orchestration logic, which only scales and combines them. -/
structure BatchLosses where
  mse : ℚ
  lpipsRaw : ℚ
  clipsim : ℚ
  gRaw : ℚ
  dRealRaw : ℚ
  dFakeRaw : ℚ
  deriving Repr, DecidableEq

/-- Events of one training micro-step, at the granularity the claims
need. -/
inductive StepEvent where
  | forwardGen
  | tokenizeCaptions
  | clipForward
  | backward (loss : ℚ)
  | clipGradGen
  | clipGradDisc
  | optStep
  | schedStep
  | optDiscStep
  | schedDiscStep
  deriving Repr, DecidableEq

/-- Is the event a backward call? -/
def StepEvent.isBackward : StepEvent → Bool
  | .backward _ => true
  | _ => false

/-- The value `loss_clipsim = 1 - clipsim.mean() / 100`
(train.py line 300). -/
def lossClipsim (L : BatchLosses) : ℚ := 1 - L.clipsim / 100

/-- The loss tensor passed to `accelerator.backward(loss)` in the
reconstruction step (train.py lines 274-303): `loss_l2 = mse * cfg.l_rec`,
`loss_lpips = lpips * cfg.l_lpips`, `loss = loss_l2 + loss_lpips`; then,
when `cfg.l_clipsim > 0`, the reassignment
`loss = loss_clipsim * cfg.l_clipsim` (line 301) replaces the accumulated
value. -/
def reconBackwardLoss (cfg : TrainConfig) (L : BatchLosses) : ℚ :=
  let loss_l2 := L.mse * cfg.l_rec
  let loss_lpips := L.lpipsRaw * cfg.l_lpips
  let loss := loss_l2 + loss_lpips
  if cfg.l_clipsim > 0 then lossClipsim L * cfg.l_clipsim else loss

/-- Phase 1, the reconstruction step (train.py lines 266-309): forward
pass, loss computation (with CLIP tokenization and forward only when
`cfg.l_clipsim > 0`), backward, gradient clipping on sync steps, optimizer
step, scheduler step. -/
def reconPhase (cfg : TrainConfig) (L : BatchLosses) (sync : Bool) :
    List StepEvent :=
  [.forwardGen] ++
  (if cfg.l_clipsim > 0 then [.tokenizeCaptions, .clipForward] else []) ++
  [.backward (reconBackwardLoss cfg L)] ++
  (if sync then [.clipGradGen] else []) ++
  [.optStep, .schedStep]

/-- Phase 2, the generator-adversarial step (train.py lines 314-326):
fresh forward pass, `lossG = net_disc(..., for_G=True).mean() * cfg.l_gan`,
backward, clip on sync, optimizer step, scheduler step. -/
def genAdvPhase (cfg : TrainConfig) (L : BatchLosses) (sync : Bool) :
    List StepEvent :=
  [.forwardGen, .backward (L.gRaw * cfg.l_gan)] ++
  (if sync then [.clipGradGen] else []) ++
  [.optStep, .schedStep]

/-- Phase 3, the discriminator-real step (train.py lines 332-344):
`lossD_real = net_disc(x_tgt, for_real=True).mean() * cfg.l_gan`,
backward, clip on sync, discriminator optimizer step, discriminator
scheduler step. -/
def discRealPhase (cfg : TrainConfig) (L : BatchLosses) (sync : Bool) :
    List StepEvent :=
  [.backward (L.dRealRaw * cfg.l_gan)] ++
  (if sync then [.clipGradDisc] else []) ++
  [.optDiscStep, .schedDiscStep]

/-- Phase 4, the discriminator-fake step (train.py lines 347-358):
`lossD_fake = net_disc(x_tgt_pred, for_real=False).mean() * cfg.l_gan`,
backward, clip on sync, discriminator optimizer step — and no
discriminator scheduler step in this branch. -/
def discFakePhase (cfg : TrainConfig) (L : BatchLosses) (sync : Bool) :
    List StepEvent :=
  [.backward (L.dFakeRaw * cfg.l_gan)] ++
  (if sync then [.clipGradDisc] else []) ++
  [.optDiscStep]

/-- One full training micro-step (train.py lines 264-359): the four
phases in their fixed source order. -/
def microStepTrace (cfg : TrainConfig) (L : BatchLosses) (sync : Bool) :
    List StepEvent :=
  reconPhase cfg L sync ++ genAdvPhase cfg L sync ++
  discRealPhase cfg L sync ++ discFakePhase cfg L sync

/-! ### Global step counter (train.py lines 261, 361-364) -/

/-- The counter: `global_step = 0` before the loop; after each micro-step,
`if accelerator.sync_gradients: global_step += 1`.  The run is modelled
by the list of per-micro-step `sync_gradients` flags, folded in loop
order. -/
def globalStepAfter (syncFlags : List Bool) : ℕ :=
  syncFlags.foldl (fun g s => if s then g + 1 else g) 0

/-! ### Synchronized-step side effects (train.py lines 361-504) -/

/-- Side effects of the post-micro-step block. -/
inductive SideEffect where
  | progressUpdate
  | logScalarLosses
  | logImages
  | checkpoint (path : String)
  | runValidation
  | trackerLog
  deriving Repr, DecidableEq

/-- The checkpoint file path
`os.path.join(cfg.output_dir, "checkpoints", f"model_\x7bglobal_step\x7d.pkl")`
(train.py lines 407-409). -/
def checkpointPath (cfg : TrainConfig) (g : ℕ) : String :=
  pathJoin (pathJoin cfg.output_dir "checkpoints")
    ("model_" ++ toString g ++ ".pkl")

/-- The block after a micro-step (train.py lines 361-504), given the
value of `global_step` before the block, whether the accelerator reports
`sync_gradients`, and whether this process is the main process.  Returns
the new `global_step` and the side effects in order.  Only under
`sync_gradients` does anything happen: progress-bar update and the
increment; then, on the main process only, scalar-loss logging, image
logging when `global_step % cfg.image_log_freq == 1`, a checkpoint write
when `global_step % cfg.model_log_freq == 1`, a validation pass when
`global_step % cfg.eval_freq == 1`, and the tracker log call. -/
def syncBlock (cfg : TrainConfig) (isMain sync : Bool) (gBefore : ℕ) :
    ℕ × List SideEffect :=
  if sync then
    let g := gBefore + 1
    (g, [.progressUpdate] ++
      (if isMain then
        [.logScalarLosses] ++
        (if g % cfg.image_log_freq = 1 then [.logImages] else []) ++
        (if g % cfg.model_log_freq = 1 then
          [.checkpoint (checkpointPath cfg g)] else []) ++
        (if g % cfg.eval_freq = 1 then [.runValidation] else []) ++
        [.trackerLog]
      else []))
  else (gBefore, [])

/-- The checkpoint paths written by one side-effect block. -/
def checkpointsWritten (effects : List SideEffect) : List String :=
  effects.filterMap fun e =>
    match e with
    | .checkpoint p => some p
    | _ => none

/-! ### Validation pass (train.py lines 413-503) -/

/-- Events of processing one validation batch. -/
inductive ValEvent where
  | forwardGen
  | computeMSE
  | computeLPIPS
  | tokenizeCaptions
  | clipForward
  | saveImage (path : String)
  | assertFail (msg : String)
  deriving Repr, DecidableEq

/-- Processing of one validation batch (train.py lines 425-479), given
the enumeration index `stepIdx`, the current `global_step`, and the batch
dimension `B` of the batch tensors.  The assertion
`assert B == 1, "Use batch size 1 for eval."` (line 431) fires first when
`B ≠ 1`, ending the run; otherwise the forward pass, the MSE and LPIPS
computations, the unconditional caption tokenization and CLIP forward
(lines 457-461), and — when `cfg.track_fid_metrci_val` — the image save
to `<output_dir>/eval/fid_<global_step>/val_<stepIdx>.png`. -/
def valBatchTrace (cfg : TrainConfig) (stepIdx globalStep B : ℕ) :
    List ValEvent :=
  if B = 1 then
    [.forwardGen, .computeMSE, .computeLPIPS, .tokenizeCaptions,
     .clipForward] ++
    (if cfg.track_fid_metrci_val then
      [.saveImage (pathJoin (pathJoin (pathJoin cfg.output_dir "eval")
        ("fid_" ++ toString globalStep))
        ("val_" ++ toString stepIdx ++ ".png"))]
    else [])
  else
    [.assertFail "Use batch size 1 for eval."]

/-- The validation loop's early exit (train.py lines 422-424):
`for step, batch_val in enumerate(dl_val): if step >= cfg.num_samples_to_eval: break`.
Given the batches the loader would yield (each represented by its batch
dimension), returns the batches actually processed, by the loop's own
recursion: at index `idx`, stop when `idx ≥ n`. -/
def valLoopAux (n idx : ℕ) : List ℕ → List ℕ
  | [] => []
  | b :: rest => if n ≤ idx then [] else b :: valLoopAux n (idx + 1) rest

/-- The validation batches processed by one validation pass. -/
def valBatchesProcessed (cfg : TrainConfig) (loaderBatches : List ℕ) :
    List ℕ :=
  valLoopAux cfg.num_samples_to_eval 0 loaderBatches

/-- Is the event a fired assertion? -/
def ValEvent.isAssertFail : ValEvent → Bool
  | .assertFail _ => true
  | _ => false

/-- The training-dataset constructor call produced by the dispatch, when
no error is raised. -/
def trainCallOf (cfg : TrainConfig) : Option DatasetCall :=
  (datasetDispatch cfg).toOption.map Prod.fst

/-- The validation-dataset constructor call produced by the dispatch:
`none` on an error and in the `"paired"` branch. -/
def valCallOf (cfg : TrainConfig) : Option DatasetCall :=
  (datasetDispatch cfg).toOption.bind Prod.snd

/-! ### Concrete configurations and batch values used as test inputs -/

/-- A configuration mirroring the one built in the script's
`__main__` block (train.py lines 508-518), with the remaining fields at
representative values and `l_clipsim = 0`. -/
def cfgBase : TrainConfig :=
  { dataset_type := "sketchy"
  , dataset_folder := "data/SketchyCaptions"
  , output_dir := "exp/sketchy_v2"
  , l_rec := 1
  , l_lpips := 1
  , l_clipsim := 0
  , l_gan := 1
  , image_log_freq := 100
  , model_log_freq := 100
  , eval_freq := 100
  , num_samples_to_eval := 2
  , epoch_num := 5
  , train_batch_size := 4
  , eval_batch_size := 1
  , track_fid_metrci_val := false }

/-- Variant of `cfgBase` with a positive text-similarity weight. -/
def cfgClip : TrainConfig := { cfgBase with l_clipsim := 1 }

/-- Variant of `cfgBase` with the `"pokemon"` dataset type. -/
def cfgPokemon : TrainConfig := { cfgBase with dataset_type := "pokemon" }

/-- Variant of `cfgBase` with the `"paired"` dataset type. -/
def cfgPaired : TrainConfig := { cfgBase with dataset_type := "paired" }

/-- Variant of `cfgBase` with a dataset type outside the recognized
set. -/
def cfgUnknown : TrainConfig := { cfgBase with dataset_type := "splatter" }

/-- Concrete raw loss values for one batch. -/
def sampleLosses : BatchLosses :=
  { mse := 2, lpipsRaw := 3, clipsim := 50, gRaw := 1, dRealRaw := 1
  , dFakeRaw := 1 }

/-! ## Helper lemmas -/

lemma globalStepAfter_foldl (g : ℕ) (l : List Bool) :
    l.foldl (fun a s => if s then a + 1 else a) g = g + globalStepAfter l := by
  induction l generalizing g with
  | nil => simp [globalStepAfter]
  | cons b t ih =>
    cases b with
    | false => simpa [globalStepAfter, List.foldl_cons] using ih g
    | true =>
      simp only [globalStepAfter, List.foldl_cons, if_true]
      rw [ih (g + 1), ih 1]
      omega

lemma globalStepAfter_append (l₁ l₂ : List Bool) :
    globalStepAfter (l₁ ++ l₂) = globalStepAfter l₁ + globalStepAfter l₂ := by
  rw [globalStepAfter, List.foldl_append, globalStepAfter_foldl]
  rfl

lemma valLoopAux_eq_take (n idx : ℕ) (l : List ℕ) :
    valLoopAux n idx l = l.take (n - idx) := by
  induction l generalizing idx with
  | nil => simp [valLoopAux]
  | cons b t ih =>
    by_cases h : n ≤ idx
    · simp [valLoopAux, h, Nat.sub_eq_zero_of_le h]
    · have h2 : n - idx = (n - (idx + 1)) + 1 := by omega
      simp [valLoopAux, h, ih (idx + 1), h2]

/-! ## Claim theorems -/

/-- C1: in the training reconstruction step, whenever `cfg.l_clipsim` is
positive, the only loss passed to the backward call is
`loss_clipsim * cfg.l_clipsim` alone — for every value of the raw MSE and
LPIPS losses, so the accumulated reconstruction and perceptual terms are
overwritten rather than added and are not backpropagated in that
branch. -/
theorem C1_recon_backward_clipsim_only (cfg : TrainConfig) (L : BatchLosses)
    (sync : Bool) (h : 0 < cfg.l_clipsim) :
    (reconPhase cfg L sync).filter StepEvent.isBackward
      = [StepEvent.backward (lossClipsim L * cfg.l_clipsim)] := by
  cases sync <;>
    simp [reconPhase, reconBackwardLoss, StepEvent.isBackward, h]

/-- Witness for C1 at a concrete configuration and batch. -/
theorem C1_witness :
    (0 : ℚ) < cfgClip.l_clipsim ∧
    (reconPhase cfgClip sampleLosses true).filter StepEvent.isBackward
      = [StepEvent.backward (lossClipsim sampleLosses * cfgClip.l_clipsim)] :=
  ⟨by norm_num [cfgClip, cfgBase],
   C1_recon_backward_clipsim_only cfgClip sampleLosses true
     (by norm_num [cfgClip, cfgBase])⟩

/-- C2 counterexample: with `dataset_type = "splatter"` the setup trace
constructs the generator (and the other networks) strictly before the
`ValueError` is raised, refuting "the raise occurs before any model is
constructed". -/
theorem C2_counterexample :
    modelBeforeValueError (setupTrace cfgUnknown) = true := by decide

/-- C2 amended: for every configuration whose `dataset_type` is not one
of the four recognized values, `main` raises a `ValueError` whose message
names the offending value and no training step is ever executed — but the
raise occurs after the generator, discriminator, LPIPS and CLIP networks
are constructed (and before the data loaders are built). -/
theorem C2_unknown_type_raises (cfg : TrainConfig)
    (h : cfg.dataset_type ∉ supportedDatasetTypes) :
    setupTrace cfg =
      [.mkGenerator, .mkDiscriminator, .mkLPIPS, .mkCLIP, .mkOptimizers,
       .raiseValueError
         ("Unknown dataset type \x27" ++ cfg.dataset_type ++ "\x27")] ∧
    SetupEvent.enterTrainingLoop ∉ setupTrace cfg := by
  simp only [supportedDatasetTypes, List.mem_cons, List.not_mem_nil,
    or_false] at h
  push_neg at h
  obtain ⟨h1, h2, h3, h4⟩ := h
  constructor <;> simp [setupTrace, datasetDispatch, h1, h2, h3, h4]

/-- Witness for C2 at `dataset_type = "splatter"`. -/
theorem C2_witness :
    cfgUnknown.dataset_type ∉ supportedDatasetTypes ∧
    (setupTrace cfgUnknown =
      [.mkGenerator, .mkDiscriminator, .mkLPIPS, .mkCLIP, .mkOptimizers,
       .raiseValueError
         ("Unknown dataset type \x27" ++ cfgUnknown.dataset_type ++ "\x27")] ∧
     SetupEvent.enterTrainingLoop ∉ setupTrace cfgUnknown) :=
  ⟨by decide, C2_unknown_type_raises cfgUnknown (by decide)⟩

/-- C3: with `dataset_type = "paired"` only the training dataset is
constructed (the validation-dataset construction is commented out), so
after the training loader is built, building the validation loader reads
the never-assigned `dataset_val` and raises; the training loop is never
reached. -/
theorem C3_paired_raises_unbound (cfg : TrainConfig)
    (h : cfg.dataset_type = "paired") :
    setupTrace cfg =
      [.mkGenerator, .mkDiscriminator, .mkLPIPS, .mkCLIP, .mkOptimizers,
       .mkDataset "PairedDataset" "train", .mkTrainLoader,
       .raiseUnboundLocal "dataset_val"] ∧
    SetupEvent.enterTrainingLoop ∉ setupTrace cfg := by
  constructor <;> simp +decide [setupTrace, datasetDispatch, h]

/-- Witness for C3 at a concrete `"paired"` configuration. -/
theorem C3_witness :
    cfgPaired.dataset_type = "paired" ∧
    (setupTrace cfgPaired =
      [.mkGenerator, .mkDiscriminator, .mkLPIPS, .mkCLIP, .mkOptimizers,
       .mkDataset "PairedDataset" "train", .mkTrainLoader,
       .raiseUnboundLocal "dataset_val"] ∧
     SetupEvent.enterTrainingLoop ∉ setupTrace cfgPaired) :=
  ⟨rfl, C3_paired_raises_unbound cfgPaired rfl⟩

/-- C4 counterexample: with `dataset_type = "pokemon"` the
validation dataset is constructed with `split="train"` — not a validation
split — refuting "the validation dataset [is invoked] with a validation
split". -/
theorem C4_counterexample :
    (valCallOf cfgPokemon).map DatasetCall.split = some "train" ∧
    ("train" : String) ≠ "val" ∧ ("train" : String) ≠ "test" := by
  refine ⟨?_, by decide, by decide⟩
  rfl

/-- C4 amended: for every supported `dataset_type` the constructor
matching that type is invoked and the training dataset receives the
`"train"` split; but only `"sketchy"` constructs its validation dataset
with the `"val"` split — `"pokemon"` and `"pixel"` construct theirs with
`split="train"`, and `"paired"` constructs no validation dataset at
all. -/
theorem C4_dispatch_splits (cfg : TrainConfig)
    (h : cfg.dataset_type ∈ supportedDatasetTypes) :
    (trainCallOf cfg).map DatasetCall.split = some "train" ∧
    (trainCallOf cfg).map DatasetCall.ctor =
      (if cfg.dataset_type = "sketchy" then some "SketchyDataset"
       else if cfg.dataset_type = "pokemon" then some "PokemonDataset"
       else if cfg.dataset_type = "pixel" then some "PixelDataset"
       else some "PairedDataset") ∧
    (valCallOf cfg).map DatasetCall.ctor =
      (if cfg.dataset_type = "sketchy" then some "SketchyDataset"
       else if cfg.dataset_type = "pokemon" then some "PokemonDataset"
       else if cfg.dataset_type = "pixel" then some "PixelDataset"
       else none) ∧
    (valCallOf cfg).map DatasetCall.split =
      (if cfg.dataset_type = "sketchy" then some "val"
       else if cfg.dataset_type = "paired" then none
       else some "train") := by
  simp only [supportedDatasetTypes, List.mem_cons, List.not_mem_nil,
    or_false] at h
  rcases h with h | h | h | h <;>
    simp +decide [trainCallOf, valCallOf, datasetDispatch, h]

/-- Witness for C4 at `dataset_type = "pokemon"`. -/
theorem C4_witness :
    cfgPokemon.dataset_type ∈ supportedDatasetTypes ∧
    ((trainCallOf cfgPokemon).map DatasetCall.split = some "train" ∧
     (trainCallOf cfgPokemon).map DatasetCall.ctor =
       (if cfgPokemon.dataset_type = "sketchy" then some "SketchyDataset"
        else if cfgPokemon.dataset_type = "pokemon" then some "PokemonDataset"
        else if cfgPokemon.dataset_type = "pixel" then some "PixelDataset"
        else some "PairedDataset") ∧
     (valCallOf cfgPokemon).map DatasetCall.ctor =
       (if cfgPokemon.dataset_type = "sketchy" then some "SketchyDataset"
        else if cfgPokemon.dataset_type = "pokemon" then some "PokemonDataset"
        else if cfgPokemon.dataset_type = "pixel" then some "PixelDataset"
        else none) ∧
     (valCallOf cfgPokemon).map DatasetCall.split =
       (if cfgPokemon.dataset_type = "sketchy" then some "val"
        else if cfgPokemon.dataset_type = "paired" then none
        else some "train")) :=
  ⟨by decide, C4_dispatch_splits cfgPokemon (by decide)⟩

/-- C5 counterexample: with `cfg.l_clipsim = 0`, processing a validation
batch still tokenizes the captions and runs the CLIP forward pass
(train.py lines 457-461 are unconditional), refuting "no caption
tokenization and no CLIP similarity computation occurs ... in the
validation pass". -/
theorem C5_counterexample :
    cfgBase.l_clipsim = 0 ∧
    ValEvent.tokenizeCaptions ∈ valBatchTrace cfgBase 0 1 1 ∧
    ValEvent.clipForward ∈ valBatchTrace cfgBase 0 1 1 := by
  refine ⟨rfl, by decide, by decide⟩

/-- C5 amended: when `cfg.l_clipsim = 0` no caption tokenization and no
CLIP similarity computation occurs in the training micro-step; the
validation pass, however, tokenizes captions and computes CLIP similarity
on every processed batch regardless of the weight. -/
theorem C5_clipsim_zero (cfg : TrainConfig) (L : BatchLosses) (sync : Bool)
    (stepIdx g : ℕ) (h : cfg.l_clipsim = 0) :
    StepEvent.tokenizeCaptions ∉ microStepTrace cfg L sync ∧
    StepEvent.clipForward ∉ microStepTrace cfg L sync ∧
    ValEvent.tokenizeCaptions ∈ valBatchTrace cfg stepIdx g 1 ∧
    ValEvent.clipForward ∈ valBatchTrace cfg stepIdx g 1 := by
  have h0 : ¬ (0 : ℚ) < cfg.l_clipsim := by simp [h]
  refine ⟨?_, ?_, ?_, ?_⟩
  · cases sync <;>
      simp [microStepTrace, reconPhase, genAdvPhase, discRealPhase,
        discFakePhase, h0]
  · cases sync <;>
      simp [microStepTrace, reconPhase, genAdvPhase, discRealPhase,
        discFakePhase, h0]
  · rcases htf : cfg.track_fid_metrci_val <;> simp [valBatchTrace, htf]
  · rcases htf : cfg.track_fid_metrci_val <;> simp [valBatchTrace, htf]

/-- Witness for C5 at a concrete configuration with zero weight. -/
theorem C5_witness :
    cfgBase.l_clipsim = 0 ∧
    (StepEvent.tokenizeCaptions ∉ microStepTrace cfgBase sampleLosses true ∧
     StepEvent.clipForward ∉ microStepTrace cfgBase sampleLosses true ∧
     ValEvent.tokenizeCaptions ∈ valBatchTrace cfgBase 0 1 1 ∧
     ValEvent.clipForward ∈ valBatchTrace cfgBase 0 1 1) :=
  ⟨rfl, C5_clipsim_zero cfgBase sampleLosses true 0 1 rfl⟩

/-- C6: the global step counter starts at 0, is incremented by exactly 1
when and only when the micro-step is a synchronized step (`+1` under a
`true` flag, unchanged under `false`), hence is monotonically
non-decreasing over the run; the accumulation group size is fixed at 20
in the `Accelerator` constructor. -/
theorem C6_global_step (flags extra : List Bool) (s : Bool) :
    globalStepAfter [] = 0 ∧
    globalStepAfter (flags ++ [s]) =
      globalStepAfter flags + (if s then 1 else 0) ∧
    globalStepAfter flags ≤ globalStepAfter (flags ++ extra) ∧
    gradientAccumulationSteps = 20 := by
  refine ⟨rfl, ?_, ?_, rfl⟩
  · rw [globalStepAfter_append]
    cases s <;> rfl
  · rw [globalStepAfter_append]
    exact Nat.le_add_right _ _

lemma checkpointPath_flat (cfg : TrainConfig) (g : ℕ) :
    checkpointPath cfg g =
      cfg.output_dir ++ "/checkpoints/model_" ++ toString g ++ ".pkl" := by
  rw [checkpointPath, pathJoin, pathJoin]
  simp only [String.append_assoc]
  congr 1

/-- C7: a model checkpoint is written if and only if the micro-step was a
synchronized step, the process is the main process, and the incremented
`global_step` satisfies `global_step % model_log_freq == 1`; the file
written is `<output_dir>/checkpoints/model_<global_step>.pkl`. -/
theorem C7_checkpoint_iff (cfg : TrainConfig) (isMain sync : Bool)
    (g : ℕ) :
    checkpointsWritten (syncBlock cfg isMain sync g).2 =
      (if sync = true ∧ isMain = true ∧ (g + 1) % cfg.model_log_freq = 1
       then [checkpointPath cfg (g + 1)] else []) ∧
    checkpointPath cfg (g + 1) =
      cfg.output_dir ++ "/checkpoints/model_" ++ toString (g + 1) ++ ".pkl" := by
  refine ⟨?_, checkpointPath_flat cfg (g + 1)⟩
  cases sync with
  | false => simp [syncBlock, checkpointsWritten]
  | true =>
    cases isMain with
    | false => simp [syncBlock, checkpointsWritten]
    | true =>
      simp only [syncBlock, if_true]
      split_ifs <;> simp_all [checkpointsWritten]

/-- C8: the validation pass is invoked exactly when the step is a
synchronized main-process step with `global_step % eval_freq == 1`, and
it processes the first `num_samples_to_eval` loader batches at most,
exiting early even if the loader yields more. -/
theorem C8_validation_bound (cfg : TrainConfig) (isMain sync : Bool)
    (g : ℕ) (loaderBatches : List ℕ) :
    (SideEffect.runValidation ∈ (syncBlock cfg isMain sync g).2 ↔
      sync = true ∧ isMain = true ∧ (g + 1) % cfg.eval_freq = 1) ∧
    valBatchesProcessed cfg loaderBatches =
      loaderBatches.take cfg.num_samples_to_eval ∧
    (valBatchesProcessed cfg loaderBatches).length ≤
      cfg.num_samples_to_eval := by
  refine ⟨?_, ?_, ?_⟩
  · cases sync with
    | false => simp [syncBlock]
    | true =>
      cases isMain with
      | false => simp [syncBlock]
      | true =>
        simp only [syncBlock, if_true]
        split_ifs <;> simp_all
  · simp [valBatchesProcessed, valLoopAux_eq_take]
  · rw [valBatchesProcessed, valLoopAux_eq_take]
    simp [List.length_take]

/-- C9: in every training micro-step the discriminator scheduler is
stepped exactly once, in the discriminator-real phase; the
discriminator-fake phase steps the discriminator optimizer but not the
discriminator scheduler. -/
theorem C9_disc_scheduler_once (cfg : TrainConfig) (L : BatchLosses)
    (sync : Bool) :
    (microStepTrace cfg L sync).count StepEvent.schedDiscStep = 1 ∧
    StepEvent.schedDiscStep ∈ discRealPhase cfg L sync ∧
    StepEvent.schedDiscStep ∉ discFakePhase cfg L sync ∧
    StepEvent.optDiscStep ∈ discFakePhase cfg L sync := by
  refine ⟨?_, ?_, ?_, ?_⟩ <;>
    cases sync <;>
    by_cases h : (0 : ℚ) < cfg.l_clipsim <;>
    simp [microStepTrace, reconPhase, genAdvPhase, discRealPhase,
      discFakePhase, h, List.count_append, List.count_cons]

/-- C10: processing a validation batch fires the
`"Use batch size 1 for eval."` assertion exactly when the batch dimension
is not 1 (and nothing else of the batch is processed in that case);
under the precondition `B = 1` the assertion never fires. -/
theorem C10_val_assert (cfg : TrainConfig) (stepIdx g B : ℕ) :
    ((valBatchTrace cfg stepIdx g B).any ValEvent.isAssertFail =
      !(B == 1)) ∧
    (B ≠ 1 →
      valBatchTrace cfg stepIdx g B =
        [.assertFail "Use batch size 1 for eval."]) := by
  by_cases h : B = 1 <;>
    rcases htf : cfg.track_fid_metrci_val <;>
    simp [valBatchTrace, h, htf, ValEvent.isAssertFail]

/-- Witness for C10: at batch dimension 2 the assertion fires and ends
the batch trace; at batch dimension 1 it does not fire. -/
theorem C10_witness :
    ((valBatchTrace cfgBase 0 1 2).any ValEvent.isAssertFail = !(2 == 1) ∧
     valBatchTrace cfgBase 0 1 2 =
       [.assertFail "Use batch size 1 for eval."]) ∧
    (valBatchTrace cfgBase 0 1 1).any ValEvent.isAssertFail = !(1 == 1) :=
  ⟨⟨(C10_val_assert cfgBase 0 1 2).1,
    (C10_val_assert cfgBase 0 1 2).2 (by decide)⟩,
   (C10_val_assert cfgBase 0 1 1).1⟩

end CVProj
